import Mathlib

/-!
Verification of the SmartFire event-production and alert-lifecycle pipeline.

Producer side (esp32_smartfire.ino): `classifySeverity`, `isGPSValid` and the
coordinate substitution performed by `handleFireAlert`.

Consumer side (components/map-imports.ts): `pollESP32Endpoint` (fetch, severity
gate, fingerprint check, proximity deduplication, alert insertion),
`parseESP32Timestamp`, `triggerFireAlertNotification` and
`generateTestFireAlert`, modelled as pure state transitions on the component
state `(alerts, lastAlertHash)`.

Modelling conventions:
- JavaScript numbers carrying coordinates are modelled as rationals `ℚ`.
- A fetch outcome is `Option ESP32FireAlert`: `none` stands for every path the
  `try/catch` swallows (timeout, connection refused, non-200 status including
  500, malformed JSON body).
- The template-literal fingerprint string
  "severity-latitude-longitude-time" is modelled as the tuple of its four
  components (`AlertHash`): JS number-to-string rendering is injective and the
  components the producer emits contain no ambiguity, so string equality of the
  literals coincides with tuple equality.  The initial fingerprint `''` (which
  equals no composite string) is modelled as `Option.none`.
- JS `Date` values are modelled by `JSDate`: `new Date(y, m, d, h, min)` keeps
  its raw arguments (JavaScript would normalize overflowing components into a
  later calendar date; the abstraction keeps the components, which preserves
  the distinctions the claims need), `new Date()` is the `now` parameter each
  tick receives, and an invalid date is `JSDate.invalid`.
- `Date.now()` is a `Nat` millisecond clock passed to each event.
-/

/-! ### Producer: severity classification (esp32_smartfire.ino) -/

def EXTREME_THRESHOLD : Int := 500

def HIGH_THRESHOLD : Int := 1000

def MODERATE_THRESHOLD : Int := 2000

def LOW_THRESHOLD : Int := 3000

/-- Firmware `classifySeverity(int sensorValue)`. -/
def classifySeverity (sensorValue : Int) : String :=
  if sensorValue < EXTREME_THRESHOLD then "EXTREME"
  else if sensorValue < HIGH_THRESHOLD then "HIGH"
  else if sensorValue < MODERATE_THRESHOLD then "MODERATE"
  else if sensorValue < LOW_THRESHOLD then "LOW"
  else "NONE"

/-- The urgency order on severity levels (spec §3: EXTREME > HIGH > MODERATE >
LOW > NONE), as a numeric rank. -/
def severityRank (s : String) : Nat :=
  if s = "EXTREME" then 4
  else if s = "HIGH" then 3
  else if s = "MODERATE" then 2
  else if s = "LOW" then 1
  else 0

/-! ### Producer: GPS validation and coordinate substitution -/

/-- The state of `gps.location` the firmware consults: the hardware fix
indicator `isValid()`, the fix age in milliseconds `age()`, and the reported
coordinates `lat()` / `lng()`. -/
structure GPSLocation where
  isValid : Bool
  age : Nat
  lat : ℚ
  lng : ℚ

/-- Firmware `isGPSValid()`:
`gps.location.isValid() && gps.location.age() < 2000`. -/
def isGPSValid (g : GPSLocation) : Bool :=
  g.isValid && decide (g.age < 2000)

def fallbackLatitude : ℚ := 16615/1000

def fallbackLongitude : ℚ := 120316/1000

/-- The coordinate pair `handleFireAlert` writes into the JSON body: the
hardware fix when `isGPSValid()`, else the configured fallback
(16.615, 120.316).  Total: the response always carries numeric coordinates. -/
def responseCoordinates (g : GPSLocation) : ℚ × ℚ :=
  if isGPSValid g then (g.lat, g.lng) else (fallbackLatitude, fallbackLongitude)

/-! ### Consumer: JS dates and `parseESP32Timestamp` -/

/-- A JS `Date`.  `JSDate.mk y m d h min` abstracts
`new Date(y, m, d, h, min)` by its raw arguments; `invalid` is JS
`Invalid Date` (produced when a component is `NaN`). -/
inductive JSDate where
  | invalid : JSDate
  | mk (year monthIndex day hour minute : Int) : JSDate
deriving DecidableEq, Repr

/-- JS `String.prototype.split` with a one-character separator, on character
lists (structural, so the kernel can evaluate it): `"".split(sep)` is `[""]`,
and separators at either end produce empty pieces, exactly as in JS. -/
def jsSplitChars (sep : Char) : List Char → List (List Char)
  | [] => [[]]
  | c :: rest =>
    let r := jsSplitChars sep rest
    if c = sep then [] :: r
    else
      match r with
      | [] => [[c]]
      | piece :: pieces => (c :: piece) :: pieces

/-- The numeric value of a digit string. -/
def charsToNat (cs : List Char) : Nat :=
  cs.foldl (fun n c => 10 * n + (c.toNat - 48)) 0

/-- JS `Number(s)` restricted to the strings this pipeline feeds it:
`Number("") = 0`, a digit string is its value, anything else is `NaN`
(modelled `none`). -/
def jsNumber (cs : List Char) : Option Int :=
  if cs = [] then some 0
  else if cs.all Char.isDigit then some (Int.ofNat (charsToNat cs))
  else none

/-- Element `i` of the mapped-number array, as JS destructuring sees it:
a missing element is `undefined`, and `undefined` or `NaN` both poison the
`Date` constructor, so both are `none`. -/
def destructNum (l : List (Option Int)) (i : Nat) : Option Int :=
  (l.get? i).getD none

/-- Consumer `parseESP32Timestamp(timestamp)` from map-imports.ts.  The `try` body
splits on a space, destructures the date on `-` and the time on `:`, maps
`Number`, and builds `new Date(year, month - 1, day, hours, minutes)`.  The
only statement that can throw is `timePart.split(':')` when the input has no
space (then `timePart` is `undefined`); the `catch` returns `new Date()`,
i.e. the current time `now`. -/
def parseESP32Timestamp (timestamp : String) (now : JSDate) : JSDate :=
  match jsSplitChars ' ' timestamp.toList with
  | datePart :: timePart :: _ =>
    let d := (jsSplitChars '-' datePart).map jsNumber
    let t := (jsSplitChars ':' timePart).map jsNumber
    match destructNum d 0, destructNum d 1, destructNum d 2,
          destructNum t 0, destructNum t 1 with
    | some year, some month, some day, some hours, some minutes =>
        JSDate.mk year (month - 1) day hours minutes
    | _, _, _, _, _ => JSDate.invalid
  | _ => now

/-! ### Consumer: data model (map-imports.ts) -/

/-- The `location` display string of an alert, kept as the data the template
literal renders: `gps lat lng` stands for
`GPS: lat.toFixed(4), lng.toFixed(4)` and `sim name` for `name (SIM)`. -/
inductive LocationText where
  | gps (lat lng : ℚ) : LocationText
  | sim (name : String) : LocationText
deriving DecidableEq, Repr

inductive AlertStatus where
  | active : AlertStatus
  | resolved : AlertStatus
deriving DecidableEq, Repr

/-- The `FireAlert` interface of map-imports.ts. -/
structure FireAlert where
  id : Nat
  severity : String
  location : LocationText
  lat : ℚ
  lng : ℚ
  time : JSDate
  status : AlertStatus
deriving DecidableEq, Repr

/-- The `ESP32FireAlert` wire record: one parsed `/fire-alert` JSON body. -/
structure ESP32FireAlert where
  severity : String
  time : String
  latitude : ℚ
  longitude : ℚ
deriving DecidableEq, Repr

/-- The content fingerprint
``alertHash = `${severity}-${latitude}-${longitude}-${time}` ``,
modelled as the tuple of its components. -/
structure AlertHash where
  severity : String
  latitude : ℚ
  longitude : ℚ
  time : String
deriving DecidableEq, Repr

def alertHash (d : ESP32FireAlert) : AlertHash :=
  ⟨d.severity, d.latitude, d.longitude, d.time⟩

/-- The consumer's mutable state touched by the poll loop: the `alerts` list
(most recent first) and `lastAlertHash` (`none` models the initial `''`,
which no composite fingerprint string equals). -/
structure ConsumerState where
  alerts : List FireAlert
  lastAlertHash : Option AlertHash
deriving DecidableEq, Repr

def initState : ConsumerState := { alerts := [], lastAlertHash := none }

/-- JS `Math.abs`. -/
def mathAbs (q : ℚ) : ℚ := if q < 0 then -q else q

/-! ### Consumer: notification dispatch -/

inductive AndroidNotificationPriority where
  | DEFAULT : AndroidNotificationPriority
  | HIGH : AndroidNotificationPriority
  | MAX : AndroidNotificationPriority
deriving DecidableEq, Repr

/-- One entry of the `severityConfig` object in
`triggerFireAlertNotification`.  `bodyTemplate` is the body text up to the
interpolated `${alert.location}`. -/
structure NotifProfile where
  title : String
  bodyTemplate : String
  sound : Bool
  priority : AndroidNotificationPriority
deriving DecidableEq, Repr

def lowProfile : NotifProfile :=
  { title := "Fire Alert - LOW 🔥"
    bodyTemplate := "Weak flame detected at "
    sound := true
    priority := .DEFAULT }

def moderateProfile : NotifProfile :=
  { title := "Fire Alert - MODERATE 🔥"
    bodyTemplate := "Moderate flame detected at "
    sound := true
    priority := .HIGH }

def highProfile : NotifProfile :=
  { title := "Fire Alert - HIGH 🔥"
    bodyTemplate := "Strong flame detected at "
    sound := true
    priority := .HIGH }

def extremeProfile : NotifProfile :=
  { title := "EMERGENCY - EXTREME FIRE ALERT 🔥"
    bodyTemplate := "CRITICAL: Extreme flame detected at "
    sound := true
    priority := .MAX }

/-- The property lookup `severityConfig[alert.severity]`: `none` models an
absent key (JS `undefined`). -/
def severityConfigLookup (sev : String) : Option NotifProfile :=
  if sev = "low" then some lowProfile
  else if sev = "moderate" then some moderateProfile
  else if sev = "high" then some highProfile
  else if sev = "extreme" then some extremeProfile
  else none

/-- One request handed to `Notifications.scheduleNotificationAsync`
(content title, body, sound, data payload; `trigger: null` = fire
immediately). -/
structure NotifRequest where
  title : String
  bodyTemplate : String
  bodyLocation : LocationText
  sound : Bool
  priority : AndroidNotificationPriority
  alertId : Nat
  severity : String
  lat : ℚ
  lng : ℚ
deriving DecidableEq, Repr

/-- Consumer `triggerFireAlertNotification(alert)`:
`const config = severityConfig[alert.severity] || severityConfig.low` followed
by one `scheduleNotificationAsync` call built from `config` and `alert`. -/
def triggerFireAlertNotification (alert : FireAlert) : NotifRequest :=
  let config := (severityConfigLookup alert.severity).getD lowProfile
  { title := config.title
    bodyTemplate := config.bodyTemplate
    bodyLocation := alert.location
    sound := config.sound
    priority := config.priority
    alertId := alert.id
    severity := alert.severity
    lat := alert.lat
    lng := alert.lng }

/-! ### Consumer: the poll tick (`pollESP32Endpoint`) -/

/-- JS `String.prototype.toLowerCase` on the ASCII severity strings this
pipeline handles (structural, so the kernel can evaluate it). -/
def jsToLowerCase (s : String) : String :=
  String.mk (s.toList.map Char.toLower)

/-- The `const newAlert = {...}` literal built inside `pollESP32Endpoint`:
`id: Date.now()`, lower-cased severity, the `GPS: ...` location string, the
wire coordinates, the parsed timestamp, `status: 'active'`. -/
def mkPolledAlert (data : ESP32FireAlert) (nowMs : Nat) (now : JSDate) :
    FireAlert :=
  { id := nowMs
    severity := jsToLowerCase data.severity
    location := .gps data.latitude data.longitude
    lat := data.latitude
    lng := data.longitude
    time := parseESP32Timestamp data.time now
    status := .active }

/-- The body of the `prevAlerts.some(...)` proximity test: absolute
coordinate differences both below 0.0001 and the stored alert `active`. -/
def withinTolerance (alert : FireAlert) (lat lng : ℚ) : Bool :=
  decide (mathAbs (alert.lat - lat) < 1/10000) &&
  decide (mathAbs (alert.lng - lng) < 1/10000) &&
  decide (alert.status = .active)

/-- One execution of `pollESP32Endpoint`, as a pure transition.

`fetch` is the outcome of the guarded fetch: `none` is every path the
`catch` swallows (timeout, connection refused, any non-200 status — the
`response.ok` throw — or a malformed body); `some data` is a parsed 200 body.
`nowMs` is `Date.now()` at the tick and `now` is `new Date()` (the current
local time used when timestamp parsing throws).

Returns the updated state and the notification requests issued during the
tick (the dispatcher is called exactly on a freshly inserted alert). -/
def pollESP32Endpoint (st : ConsumerState) (fetch : Option ESP32FireAlert)
    (nowMs : Nat) (now : JSDate) : ConsumerState × List NotifRequest :=
  match fetch with
  | none => (st, [])
  | some data =>
    if data.severity ≠ "" ∧ data.severity ≠ "NONE" then
      if some (alertHash data) ≠ st.lastAlertHash then
        let newAlert := mkPolledAlert data nowMs now
        if st.alerts.any fun alert => withinTolerance alert newAlert.lat newAlert.lng then
          ({ st with lastAlertHash := some (alertHash data) }, [])
        else
          ({ alerts := newAlert :: st.alerts, lastAlertHash := some (alertHash data) },
           [triggerFireAlertNotification newAlert])
      else (st, [])
    else (st, [])

/-! ### Consumer: manual test-alert generation and the event step -/

structure TestLocation where
  lat : ℚ
  lng : ℚ
  name : String
deriving DecidableEq, Repr

/-- The `testLocations` array. -/
def testLocations : List TestLocation :=
  [ ⟨166542/10000, 1203456/10000, "Bacolod City"⟩
  , ⟨168850/10000, 1202726/10000, "Negros Occidental"⟩
  , ⟨164247/10000, 1205988/10000, "Antique Province"⟩
  , ⟨169974/10000, 1206821/10000, "Aklan Province"⟩
  , ⟨165952/10000, 1201949/10000, "Silay City"⟩
  , ⟨167471/10000, 1204097/10000, "Cadiz City"⟩
  , ⟨165453/10000, 1206236/10000, "Iloilo City"⟩ ]

/-- The `severities` array of `generateTestFireAlert`. -/
def testSeverities : List String := ["low", "moderate", "high", "extreme"]

/-- Consumer `generateTestFireAlert()`: the random draws are inputs — `locIdx` and
`sevIdx` are the `Math.floor(Math.random() * length)` indices, `r1` and `r2`
the two `Math.random()` values in `[0,1)` feeding the coordinate jitter
`(Math.random() - 0.5) * 0.02`.  `nowMs` is `Date.now()`, `now` is
`new Date()`. -/
def generateTestFireAlert (locIdx sevIdx : Nat) (r1 r2 : ℚ)
    (nowMs : Nat) (now : JSDate) : FireAlert :=
  let location := testLocations.getD locIdx ⟨0, 0, ""⟩
  let severity := testSeverities.getD sevIdx ""
  { id := nowMs
    severity := severity
    location := .sim location.name
    lat := location.lat + (r1 - 1/2) * (2/100)
    lng := location.lng + (r2 - 1/2) * (2/100)
    time := now
    status := .active }

/-- One serialized writer event against the consumer state: a poll tick, or a
manual `generateTestFireAlert` invocation. -/
inductive ConsumerEvent where
  | tick (fetch : Option ESP32FireAlert) (nowMs : Nat) (now : JSDate)
  | testAlert (locIdx sevIdx : Nat) (r1 r2 : ℚ) (nowMs : Nat) (now : JSDate)
deriving DecidableEq

/-- The effect of one event on the consumer state, with the notification
requests it issues (`generateTestFireAlert` prepends its alert and always
notifies; a tick runs `pollESP32Endpoint`). -/
def step (st : ConsumerState) : ConsumerEvent → ConsumerState × List NotifRequest
  | .tick fetch nowMs now => pollESP32Endpoint st fetch nowMs now
  | .testAlert locIdx sevIdx r1 r2 nowMs now =>
    let newAlert := generateTestFireAlert locIdx sevIdx r1 r2 nowMs now
    ({ st with alerts := newAlert :: st.alerts },
     [triggerFireAlertNotification newAlert])

def runEvents (st : ConsumerState) (evs : List ConsumerEvent) : ConsumerState :=
  evs.foldl (fun s e => (step s e).1) st

/-- The `Date.now()` value observed by an event. -/
def eventTimeMs : ConsumerEvent → Nat
  | .tick _ nowMs _ => nowMs
  | .testAlert _ _ _ _ nowMs _ => nowMs

/-- The random indices an event can actually carry:
`Math.floor(Math.random() * 7)` is below 7 and
`Math.floor(Math.random() * 4)` below 4. -/
def validEvent : ConsumerEvent → Prop
  | .tick _ _ _ => True
  | .testAlert locIdx sevIdx _ _ _ _ => locIdx < 7 ∧ sevIdx < 4

instance : DecidablePred validEvent := fun e =>
  match e with
  | .tick _ _ _ => .isTrue trivial
  | .testAlert locIdx sevIdx _ _ _ _ =>
    inferInstanceAs (Decidable (locIdx < 7 ∧ sevIdx < 4))

/-- A trace the real system can produce: in-range random indices, and a
non-decreasing `Date.now()` wall clock. -/
def validTrace (evs : List ConsumerEvent) : Prop :=
  (∀ e ∈ evs, validEvent e) ∧ (evs.map eventTimeMs).Chain' (· ≤ ·)

/-! ### Helper lemmas shared by the claim theorems -/

lemma severityRank_classifySeverity (r : Int) :
    severityRank (classifySeverity r) =
      if r < 500 then 4 else if r < 1000 then 3 else if r < 2000 then 2
      else if r < 3000 then 1 else 0 := by
  unfold classifySeverity EXTREME_THRESHOLD HIGH_THRESHOLD MODERATE_THRESHOLD
    LOW_THRESHOLD severityRank
  split_ifs <;> simp_all

lemma pollESP32Endpoint_gate (st : ConsumerState) (data : ESP32FireAlert)
    (nowMs : Nat) (now : JSDate)
    (h : data.severity = "NONE" ∨ data.severity = "") :
    pollESP32Endpoint st (some data) nowMs now = (st, []) := by
  rcases h with h | h <;> simp [pollESP32Endpoint, h]

lemma pollESP32Endpoint_dup (st : ConsumerState) (data : ESP32FireAlert)
    (nowMs : Nat) (now : JSDate)
    (hh : some (alertHash data) = st.lastAlertHash) :
    pollESP32Endpoint st (some data) nowMs now = (st, []) := by
  by_cases hs : data.severity ≠ "" ∧ data.severity ≠ "NONE" <;>
    simp [pollESP32Endpoint, hs, hh]

lemma pollESP32Endpoint_merge (st : ConsumerState) (data : ESP32FireAlert)
    (nowMs : Nat) (now : JSDate)
    (hne : data.severity ≠ "") (hnone : data.severity ≠ "NONE")
    (hh : some (alertHash data) ≠ st.lastAlertHash)
    (hex : (st.alerts.any fun alert =>
      withinTolerance alert data.latitude data.longitude) = true) :
    pollESP32Endpoint st (some data) nowMs now =
      ({ st with lastAlertHash := some (alertHash data) }, []) := by
  simp [pollESP32Endpoint, hne, hnone, hh, mkPolledAlert, hex]

lemma pollESP32Endpoint_insert (st : ConsumerState) (data : ESP32FireAlert)
    (nowMs : Nat) (now : JSDate)
    (hne : data.severity ≠ "") (hnone : data.severity ≠ "NONE")
    (hh : some (alertHash data) ≠ st.lastAlertHash)
    (hex : (st.alerts.any fun alert =>
      withinTolerance alert data.latitude data.longitude) = false) :
    pollESP32Endpoint st (some data) nowMs now =
      ({ alerts := mkPolledAlert data nowMs now :: st.alerts,
         lastAlertHash := some (alertHash data) },
       [triggerFireAlertNotification (mkPolledAlert data nowMs now)]) := by
  simp [pollESP32Endpoint, hne, hnone, hh, mkPolledAlert, hex]

/-! ### Claim theorems -/

/-- C1: for every reading r in [0,4095], `classifySeverity` maps r < 500 to
EXTREME, 500 ≤ r < 1000 to HIGH, 1000 ≤ r < 2000 to MODERATE,
2000 ≤ r < 3000 to LOW and 3000 ≤ r to NONE; it is total (always one of the
five levels), agrees with the stated boundary values, and severity is
monotonically non-increasing in the reading (in the urgency order
`severityRank`). -/
theorem classifySeverity_bands_total_monotone (r : Int)
    (h0 : 0 ≤ r) (h1 : r ≤ 4095) :
    ((r < 500 → classifySeverity r = "EXTREME") ∧
     (500 ≤ r ∧ r < 1000 → classifySeverity r = "HIGH") ∧
     (1000 ≤ r ∧ r < 2000 → classifySeverity r = "MODERATE") ∧
     (2000 ≤ r ∧ r < 3000 → classifySeverity r = "LOW") ∧
     (3000 ≤ r → classifySeverity r = "NONE")) ∧
    (classifySeverity r = "EXTREME" ∨ classifySeverity r = "HIGH" ∨
     classifySeverity r = "MODERATE" ∨ classifySeverity r = "LOW" ∨
     classifySeverity r = "NONE") ∧
    (classifySeverity 499 = "EXTREME" ∧ classifySeverity 500 = "HIGH" ∧
     classifySeverity 999 = "HIGH" ∧ classifySeverity 1000 = "MODERATE" ∧
     classifySeverity 1999 = "MODERATE" ∧ classifySeverity 2000 = "LOW" ∧
     classifySeverity 2999 = "LOW" ∧ classifySeverity 3000 = "NONE") ∧
    (∀ s : Int, r ≤ s → s ≤ 4095 →
      severityRank (classifySeverity s) ≤ severityRank (classifySeverity r)) := by
  refine ⟨⟨?_, ?_, ?_, ?_, ?_⟩, ?_, by decide, ?_⟩ <;>
    try (intro h
         unfold classifySeverity EXTREME_THRESHOLD HIGH_THRESHOLD
           MODERATE_THRESHOLD LOW_THRESHOLD
         split_ifs <;> first | rfl | omega)
  · unfold classifySeverity EXTREME_THRESHOLD HIGH_THRESHOLD
      MODERATE_THRESHOLD LOW_THRESHOLD
    split_ifs <;> simp
  · intro s hrs _
    rw [severityRank_classifySeverity, severityRank_classifySeverity]
    split_ifs <;> omega

theorem classifySeverity_bands_total_monotone_witness :
    classifySeverity 499 = "EXTREME" :=
  (classifySeverity_bands_total_monotone 499 (by decide) (by decide)).1.1
    (by decide)

/-- C4: a snapshot whose severity is NONE is a complete no-op on any
consumer state: the alert store (and the whole state) is unchanged and no
notification is dispatched. -/
theorem none_severity_is_noop (st : ConsumerState) (data : ESP32FireAlert)
    (nowMs : Nat) (now : JSDate) (h : data.severity = "NONE") :
    pollESP32Endpoint st (some data) nowMs now = (st, []) :=
  pollESP32Endpoint_gate st data nowMs now (Or.inl h)

theorem none_severity_is_noop_witness :
    pollESP32Endpoint initState
      (some ⟨"NONE", "2026-01-22 21:35", 16615/1000, 120316/1000⟩)
      1000 (JSDate.mk 2026 0 22 21 35) = (initState, []) :=
  none_severity_is_noop initState
    ⟨"NONE", "2026-01-22 21:35", 16615/1000, 120316/1000⟩
    1000 (JSDate.mk 2026 0 22 21 35) rfl

/-- C5: `isGPSValid` holds exactly when the hardware fix indicator is set and
the fix age is strictly below 2000 ms; in that case the response carries the
hardware coordinates verbatim, otherwise it carries the configured fallback
(16.615, 120.316) — always a numeric pair, never an absent position. -/
theorem gps_validation_spec (g : GPSLocation) :
    (isGPSValid g = true ↔ g.isValid = true ∧ g.age < 2000) ∧
    (isGPSValid g = true → responseCoordinates g = (g.lat, g.lng)) ∧
    (isGPSValid g = false →
      responseCoordinates g = (fallbackLatitude, fallbackLongitude)) := by
  refine ⟨?_, ?_, ?_⟩
  · simp [isGPSValid]
  · intro h; simp [responseCoordinates, h]
  · intro h; simp [responseCoordinates, h]

theorem gps_validation_spec_witness :
    responseCoordinates ⟨true, 2000, 1, 2⟩ =
      (fallbackLatitude, fallbackLongitude) :=
  (gps_validation_spec ⟨true, 2000, 1, 2⟩).2.2 (by decide)

/-- C6: a failed fetch (timeout, refused connection, non-200 status including
500, malformed body — all collapsed into the `none` outcome the `catch`
swallows) leaves the state untouched and dispatches nothing; any number of
consecutive failed ticks leaves the state untouched, and the events after
them are processed exactly as if the failures had not happened (the poll loop
is not terminated). -/
theorem failed_tick_is_silent (st : ConsumerState) (nowMs : Nat) (now : JSDate)
    (fails : List (Nat × JSDate)) (rest : List ConsumerEvent) :
    pollESP32Endpoint st none nowMs now = (st, []) ∧
    runEvents st (fails.map fun p => ConsumerEvent.tick none p.1 p.2) = st ∧
    runEvents st ((fails.map fun p => ConsumerEvent.tick none p.1 p.2) ++ rest)
      = runEvents st rest := by
  have hrep : runEvents st (fails.map fun p => ConsumerEvent.tick none p.1 p.2)
      = st := by
    induction fails with
    | nil => rfl
    | cons p ps ih => exact ih
  refine ⟨rfl, hrep, ?_⟩
  unfold runEvents
  rw [List.foldl_append]
  have hrep' : List.foldl (fun s e => (step s e).1) st
      (fails.map fun p => ConsumerEvent.tick none p.1 p.2) = st := hrep
  rw [hrep']

lemma pollESP32Endpoint_cases (st : ConsumerState) (fetch : Option ESP32FireAlert)
    (nowMs : Nat) (now : JSDate) :
    ((pollESP32Endpoint st fetch nowMs now).1.alerts = st.alerts ∧
      (pollESP32Endpoint st fetch nowMs now).2 = []) ∨
    ∃ data, fetch = some data ∧
      (pollESP32Endpoint st fetch nowMs now).1.alerts
        = mkPolledAlert data nowMs now :: st.alerts ∧
      (pollESP32Endpoint st fetch nowMs now).2
        = [triggerFireAlertNotification (mkPolledAlert data nowMs now)] := by
  cases fetch with
  | none => exact Or.inl ⟨rfl, rfl⟩
  | some data =>
    by_cases h1 : data.severity ≠ "" ∧ data.severity ≠ "NONE"
    · by_cases h2 : some (alertHash data) ≠ st.lastAlertHash
      · by_cases h3 : (st.alerts.any fun alert =>
            withinTolerance alert data.latitude data.longitude) = true
        · left
          rw [pollESP32Endpoint_merge st data nowMs now h1.1 h1.2 h2 h3]
          exact ⟨rfl, rfl⟩
        · right
          refine ⟨data, rfl, ?_⟩
          rw [pollESP32Endpoint_insert st data nowMs now h1.1 h1.2 h2
            (Bool.not_eq_true _ ▸ h3)]
          exact ⟨rfl, rfl⟩
      · left
        rw [pollESP32Endpoint_dup st data nowMs now (not_not.mp h2)]
        exact ⟨rfl, rfl⟩
    · left
      have hgate : data.severity = "NONE" ∨ data.severity = "" := by
        rcases not_and_or.mp h1 with h | h
        · exact Or.inr (not_not.mp h)
        · exact Or.inl (not_not.mp h)
      rw [pollESP32Endpoint_gate st data nowMs now hgate]
      exact ⟨rfl, rfl⟩

lemma pollESP32Endpoint_sets_hash (st : ConsumerState) (data : ESP32FireAlert)
    (nowMs : Nat) (now : JSDate)
    (hne : data.severity ≠ "") (hnone : data.severity ≠ "NONE") :
    (pollESP32Endpoint st (some data) nowMs now).1.lastAlertHash
      = some (alertHash data) := by
  by_cases h2 : some (alertHash data) ≠ st.lastAlertHash
  · by_cases h3 : (st.alerts.any fun alert =>
        withinTolerance alert data.latitude data.longitude) = true
    · rw [pollESP32Endpoint_merge st data nowMs now hne hnone h2 h3]
    · rw [pollESP32Endpoint_insert st data nowMs now hne hnone h2
        (Bool.not_eq_true _ ▸ h3)]
  · rw [pollESP32Endpoint_dup st data nowMs now (not_not.mp h2)]
    exact (not_not.mp h2).symm

lemma runEvents_none_ticks :
    ∀ (nones : List (ESP32FireAlert × Nat × JSDate)) (st : ConsumerState),
    (∀ x ∈ nones, x.1.severity = "NONE") →
    runEvents st (nones.map fun x => ConsumerEvent.tick (some x.1) x.2.1 x.2.2)
      = st
  | [], _, _ => rfl
  | x :: xs, st, hn => by
    have hx : x.1.severity = "NONE" := hn x (List.mem_cons_self _ _)
    have hstep : (pollESP32Endpoint st (some x.1) x.2.1 x.2.2).1 = st := by
      rw [pollESP32Endpoint_gate st x.1 x.2.1 x.2.2 (Or.inl hx)]
    show runEvents (pollESP32Endpoint st (some x.1) x.2.1 x.2.2).1
        (xs.map fun x => ConsumerEvent.tick (some x.1) x.2.1 x.2.2) = st
    rw [hstep]
    exact runEvents_none_ticks xs st fun y hy => hn y (List.mem_cons_of_mem _ hy)

/-- C2: starting from the empty store with the empty fingerprint, a non-NONE
snapshot creates exactly one ACTIVE alert carrying the lower-cased severity,
the snapshot's coordinates and its parsed timestamp, with exactly one
notification request; the identical snapshot one tick later is a no-op via
the fingerprint match (no second alert, no second notification). -/
theorem dedup_idempotent (data : ESP32FireAlert) (t1 t2 : Nat)
    (now1 now2 : JSDate)
    (hne : data.severity ≠ "") (hnone : data.severity ≠ "NONE") :
    (pollESP32Endpoint initState (some data) t1 now1).1.alerts
        = [mkPolledAlert data t1 now1] ∧
    (mkPolledAlert data t1 now1).status = .active ∧
    (mkPolledAlert data t1 now1).severity = jsToLowerCase data.severity ∧
    (mkPolledAlert data t1 now1).lat = data.latitude ∧
    (mkPolledAlert data t1 now1).lng = data.longitude ∧
    (mkPolledAlert data t1 now1).time = parseESP32Timestamp data.time now1 ∧
    (pollESP32Endpoint initState (some data) t1 now1).2
        = [triggerFireAlertNotification (mkPolledAlert data t1 now1)] ∧
    pollESP32Endpoint (pollESP32Endpoint initState (some data) t1 now1).1
        (some data) t2 now2
      = ((pollESP32Endpoint initState (some data) t1 now1).1, []) := by
  have hins := pollESP32Endpoint_insert initState data t1 now1 hne hnone
    (by simp [initState]) rfl
  rw [hins]
  exact ⟨rfl, rfl, rfl, rfl, rfl, rfl, rfl,
    pollESP32Endpoint_dup _ data t2 now2 rfl⟩

theorem dedup_idempotent_witness :
    (pollESP32Endpoint initState
        (some ⟨"HIGH", "2026-01-22 21:35", 16615/1000, 120316/1000⟩)
        1000 (JSDate.mk 2026 0 22 21 36)).1.alerts
      = [mkPolledAlert ⟨"HIGH", "2026-01-22 21:35", 16615/1000, 120316/1000⟩
          1000 (JSDate.mk 2026 0 22 21 36)] :=
  (dedup_idempotent ⟨"HIGH", "2026-01-22 21:35", 16615/1000, 120316/1000⟩
    1000 2000 (JSDate.mk 2026 0 22 21 36) (JSDate.mk 2026 0 22 21 37)
    (by decide) (by decide)).1

/-- C3: after a first non-NONE snapshot from the empty store, a second
non-NONE snapshot with a different fingerprint is merged into the existing
ACTIVE alert (no new alert, no notification) when both coordinate differences
are strictly below 0.0001°, and creates a second, distinct alert when at
least one axis differs by 0.0001° or more. -/
theorem proximity_dedup (d1 d2 : ESP32FireAlert) (t1 t2 : Nat)
    (now1 now2 : JSDate)
    (h1e : d1.severity ≠ "") (h1n : d1.severity ≠ "NONE")
    (h2e : d2.severity ≠ "") (h2n : d2.severity ≠ "NONE")
    (hdiff : alertHash d1 ≠ alertHash d2) :
    ((mathAbs (d1.latitude - d2.latitude) < 1/10000 ∧
      mathAbs (d1.longitude - d2.longitude) < 1/10000) →
      (pollESP32Endpoint (pollESP32Endpoint initState (some d1) t1 now1).1
          (some d2) t2 now2).1.alerts = [mkPolledAlert d1 t1 now1] ∧
      (pollESP32Endpoint (pollESP32Endpoint initState (some d1) t1 now1).1
          (some d2) t2 now2).2 = []) ∧
    ((1/10000 ≤ mathAbs (d1.latitude - d2.latitude) ∨
      1/10000 ≤ mathAbs (d1.longitude - d2.longitude)) →
      (pollESP32Endpoint (pollESP32Endpoint initState (some d1) t1 now1).1
          (some d2) t2 now2).1.alerts
        = [mkPolledAlert d2 t2 now2, mkPolledAlert d1 t1 now1] ∧
      mkPolledAlert d2 t2 now2 ≠ mkPolledAlert d1 t1 now1) := by
  have hins1 := pollESP32Endpoint_insert initState d1 t1 now1 h1e h1n
    (by simp [initState]) rfl
  have hst1 : (pollESP32Endpoint initState (some d1) t1 now1).1
      = ConsumerState.mk [mkPolledAlert d1 t1 now1] (some (alertHash d1)) := by
    rw [hins1]; rfl
  rw [hst1]
  have hh2 : some (alertHash d2) ≠
      (ConsumerState.mk [mkPolledAlert d1 t1 now1]
        (some (alertHash d1))).lastAlertHash := by
    simpa using (Ne.symm hdiff)
  constructor
  · rintro ⟨hla, hlo⟩
    have hex : ((ConsumerState.mk [mkPolledAlert d1 t1 now1]
        (some (alertHash d1))).alerts.any
          fun alert => withinTolerance alert d2.latitude d2.longitude) = true := by
      simpa [withinTolerance, mkPolledAlert] using And.intro hla hlo
    rw [pollESP32Endpoint_merge _ d2 t2 now2 h2e h2n hh2 hex]
    exact ⟨rfl, rfl⟩
  · intro hfar
    have hex : ((ConsumerState.mk [mkPolledAlert d1 t1 now1]
        (some (alertHash d1))).alerts.any
          fun alert => withinTolerance alert d2.latitude d2.longitude) = false := by
      have hnot : ¬(mathAbs (d1.latitude - d2.latitude) < 1/10000 ∧
          mathAbs (d1.longitude - d2.longitude) < 1/10000) := by
        rcases hfar with h | h
        · exact fun hc => absurd hc.1 (not_lt.mpr h)
        · exact fun hc => absurd hc.2 (not_lt.mpr h)
      simp only [withinTolerance, mkPolledAlert, List.any_cons, List.any_nil,
        Bool.or_false, Bool.and_eq_false_iff, decide_eq_false_iff_not]
      tauto
    rw [pollESP32Endpoint_insert _ d2 t2 now2 h2e h2n hh2 hex]
    refine ⟨rfl, ?_⟩
    intro he
    have hlat := congrArg FireAlert.lat he
    have hlng := congrArg FireAlert.lng he
    simp only [mkPolledAlert] at hlat hlng
    rcases hfar with h | h
    · rw [← hlat] at h
      simp [mathAbs, sub_self] at h
      exact absurd h (by norm_num)
    · rw [← hlng] at h
      simp [mathAbs, sub_self] at h
      exact absurd h (by norm_num)

theorem proximity_dedup_witness :
    (pollESP32Endpoint
        (pollESP32Endpoint initState
          (some ⟨"HIGH", "2026-01-22 21:35", 16615/1000, 120316/1000⟩)
          1000 (JSDate.mk 2026 0 22 21 36)).1
        (some ⟨"EXTREME", "2026-01-22 21:36", 16615/1000, 120316/1000⟩)
        2000 (JSDate.mk 2026 0 22 21 37)).1.alerts
      = [mkPolledAlert ⟨"HIGH", "2026-01-22 21:35", 16615/1000, 120316/1000⟩
          1000 (JSDate.mk 2026 0 22 21 36)] :=
  ((proximity_dedup ⟨"HIGH", "2026-01-22 21:35", 16615/1000, 120316/1000⟩
      ⟨"EXTREME", "2026-01-22 21:36", 16615/1000, 120316/1000⟩
      1000 2000 (JSDate.mk 2026 0 22 21 36) (JSDate.mk 2026 0 22 21 37)
      (by decide) (by decide) (by decide) (by decide)
      (by simp [alertHash])).1
    ⟨by norm_num [mathAbs], by norm_num [mathAbs]⟩).1

/-- C7 counterexample: for the spec's own example input
`"2026-99-99 99:99"` the alert IS created (no crash, no rejection), but its
`firstObservedAt` is the rolled-over `Date` built from the out-of-range
components, NOT the current local time of the tick: in JS,
`new Date(2026, 98, 99, 99, 99)` is a valid far-future date, so the `catch`
branch that substitutes the current time is never reached — splitting and
`Number` conversion of `"2026-99-99 99:99"` all succeed. -/
theorem malformed_timestamp_not_now :
    (pollESP32Endpoint initState
        (some ⟨"HIGH", "2026-99-99 99:99", 16615/1000, 120316/1000⟩)
        1000 (JSDate.mk 2026 0 22 21 40)).1.alerts.map FireAlert.time
      = [JSDate.mk 2026 98 99 99 99] ∧
    JSDate.mk 2026 98 99 99 99 ≠ JSDate.mk 2026 0 22 21 40 := by
  exact ⟨by decide, by decide⟩

/-- C7 amended: the consumer never crashes and never rejects a snapshot over
its time string.  A time string with no space (so the destructured `timePart`
is `undefined` and `.split` throws) makes the parser substitute the current
local time; the numerically out-of-range `"2026-99-99 99:99"` instead parses
without throwing into the rolled-over `new Date(2026, 98, 99, 99, 99)`,
which becomes the alert's time instead of the current time. -/
theorem malformed_timestamp_handling (sev ts : String) (lat lng : ℚ)
    (t : Nat) (now : JSDate)
    (hne : sev ≠ "") (hnone : sev ≠ "NONE")
    (hnosp : (jsSplitChars ' ' ts.toList).length = 1) :
    ((pollESP32Endpoint initState (some ⟨sev, "2026-99-99 99:99", lat, lng⟩)
        t now).1.alerts
      = [mkPolledAlert ⟨sev, "2026-99-99 99:99", lat, lng⟩ t now] ∧
     (mkPolledAlert ⟨sev, "2026-99-99 99:99", lat, lng⟩ t now).time
      = JSDate.mk 2026 98 99 99 99) ∧
    ((pollESP32Endpoint initState (some ⟨sev, ts, lat, lng⟩) t now).1.alerts
      = [mkPolledAlert ⟨sev, ts, lat, lng⟩ t now] ∧
     (mkPolledAlert ⟨sev, ts, lat, lng⟩ t now).time = now) := by
  have h1 := pollESP32Endpoint_insert initState
    ⟨sev, "2026-99-99 99:99", lat, lng⟩ t now hne hnone (by simp [initState]) rfl
  have h2 := pollESP32Endpoint_insert initState
    ⟨sev, ts, lat, lng⟩ t now hne hnone (by simp [initState]) rfl
  refine ⟨⟨by rw [h1]; rfl, rfl⟩, by rw [h2]; rfl, ?_⟩
  show parseESP32Timestamp ts now = now
  rcases hsp : jsSplitChars ' ' ts.toList with _ | ⟨a, _ | ⟨b, l⟩⟩
  · unfold parseESP32Timestamp
    rw [hsp]
  · unfold parseESP32Timestamp
    rw [hsp]
  · rw [hsp] at hnosp
    simp at hnosp

theorem malformed_timestamp_handling_witness :
    (mkPolledAlert ⟨"HIGH", "garbage", 16615/1000, 120316/1000⟩ 1000
        (JSDate.mk 2026 0 22 21 40)).time = JSDate.mk 2026 0 22 21 40 :=
  (malformed_timestamp_handling "HIGH" "garbage" (16615/1000) (120316/1000)
    1000 (JSDate.mk 2026 0 22 21 40) (by decide) (by decide) (by decide)).2.2

/-- C8: `triggerFireAlertNotification` selects exactly one profile per
severity string — low, moderate, high and extreme each their own, with
extreme carrying the maximum Android priority — and any severity string
outside these four falls back to the low profile without crashing; every
poll tick issues exactly one notification request (carrying title, body
and priority) for a newly created alert and none otherwise. -/
theorem notification_dispatch (a : FireAlert)
    (h1 : a.severity ≠ "low") (h2 : a.severity ≠ "moderate")
    (h3 : a.severity ≠ "high") (h4 : a.severity ≠ "extreme") :
    (severityConfigLookup "low" = some lowProfile ∧
     severityConfigLookup "moderate" = some moderateProfile ∧
     severityConfigLookup "high" = some highProfile ∧
     severityConfigLookup "extreme" = some extremeProfile ∧
     extremeProfile.priority = AndroidNotificationPriority.MAX) ∧
    (severityConfigLookup a.severity = none ∧
     (triggerFireAlertNotification a).title = lowProfile.title ∧
     (triggerFireAlertNotification a).bodyTemplate = lowProfile.bodyTemplate ∧
     (triggerFireAlertNotification a).priority = lowProfile.priority) ∧
    (∀ (st : ConsumerState) (fetch : Option ESP32FireAlert) (nowMs : Nat)
        (now : JSDate),
      ((pollESP32Endpoint st fetch nowMs now).1.alerts = st.alerts ∧
        (pollESP32Endpoint st fetch nowMs now).2 = []) ∨
      ∃ b, (pollESP32Endpoint st fetch nowMs now).1.alerts = b :: st.alerts ∧
        (pollESP32Endpoint st fetch nowMs now).2
          = [triggerFireAlertNotification b]) := by
  have hlook : severityConfigLookup a.severity = none := by
    simp [severityConfigLookup, h1, h2, h3, h4]
  refine ⟨⟨by decide, by decide, by decide, by decide, rfl⟩,
    ⟨hlook, ?_, ?_, ?_⟩, ?_⟩
  · simp [triggerFireAlertNotification, hlook]
  · simp [triggerFireAlertNotification, hlook]
  · simp [triggerFireAlertNotification, hlook]
  · intro st fetch nowMs now
    rcases pollESP32Endpoint_cases st fetch nowMs now with h | ⟨data, _, hh⟩
    · exact Or.inl h
    · exact Or.inr ⟨mkPolledAlert data nowMs now, hh⟩

theorem notification_dispatch_witness :
    (triggerFireAlertNotification
        ⟨1, "warning", .sim "x", 0, 0, .invalid, .active⟩).priority
      = lowProfile.priority :=
  (notification_dispatch ⟨1, "warning", .sim "x", 0, 0, .invalid, .active⟩
    (by decide) (by decide) (by decide) (by decide)).2.1.2.2.2

lemma step_creates_with_timeMs (st : ConsumerState) (e : ConsumerEvent) :
    (step st e).1.alerts = st.alerts ∨
    ∃ a : FireAlert, a.id = eventTimeMs e ∧
      (step st e).1.alerts = a :: st.alerts := by
  cases e with
  | tick fetch nowMs now =>
    rcases pollESP32Endpoint_cases st fetch nowMs now with ⟨h, _⟩ | ⟨data, _, h, _⟩
    · exact Or.inl h
    · exact Or.inr ⟨mkPolledAlert data nowMs now, rfl, h⟩
  | testAlert locIdx sevIdx r1 r2 nowMs now =>
    exact Or.inr ⟨generateTestFireAlert locIdx sevIdx r1 r2 nowMs now, rfl, rfl⟩

lemma runEvents_ids_distinct :
    ∀ (evs : List ConsumerEvent) (st : ConsumerState),
    evs.Pairwise (fun e f => eventTimeMs e < eventTimeMs f) →
    (∀ a ∈ st.alerts, ∀ e ∈ evs, a.id < eventTimeMs e) →
    st.alerts.Pairwise (fun a b => a.id ≠ b.id) →
    (runEvents st evs).alerts.Pairwise (fun a b => a.id ≠ b.id)
  | [], _, _, _, hp => hp
  | e :: evs, st, hs, hb, hp => by
    rw [List.pairwise_cons] at hs
    show (runEvents (step st e).1 evs).alerts.Pairwise (fun a b => a.id ≠ b.id)
    rcases step_creates_with_timeMs st e with heq | ⟨a, hid, heq⟩
    · refine runEvents_ids_distinct evs _ hs.2 ?_ ?_
      · rw [heq]
        exact fun x hx f hf => hb x hx f (List.mem_cons_of_mem _ hf)
      · rw [heq]; exact hp
    · refine runEvents_ids_distinct evs _ hs.2 ?_ ?_
      · rw [heq]
        intro x hx f hf
        rcases List.mem_cons.mp hx with hxa | hxs
        · subst hxa
          rw [hid]
          exact hs.1 f hf
        · exact hb x hxs f (List.mem_cons_of_mem _ hf)
      · rw [heq]
        refine List.Pairwise.cons ?_ hp
        intro b hbmem
        have hlt : b.id < eventTimeMs e :=
          hb b hbmem e (List.mem_cons_self _ _)
        rw [hid]
        exact Nat.ne_of_gt hlt

/-- C9 amended: alert identifiers are `Date.now()` timestamps, so they are
pairwise distinct in every state reachable by a valid trace in which no two
events observe the same millisecond clock value; two creations within the
same millisecond (possible for the real `Date.now()`) defeaters this, see
the counterexample. -/
theorem alert_ids_unique_of_strict_clock (evs : List ConsumerEvent)
    (_hv : validTrace evs)
    (hs : evs.Pairwise fun e f => eventTimeMs e < eventTimeMs f) :
    (runEvents initState evs).alerts.Pairwise fun a b => a.id ≠ b.id :=
  runEvents_ids_distinct evs initState hs
    (fun a ha => absurd ha (by simp [initState]))
    (by simp [initState])

theorem alert_ids_unique_of_strict_clock_witness :
    (runEvents initState
      [ConsumerEvent.testAlert 0 0 (1/2) (1/2) 1000 (JSDate.mk 2026 0 1 0 0),
       ConsumerEvent.testAlert 0 1 (1/2) (1/2) 2000 (JSDate.mk 2026 0 1 0 1)]).alerts.Pairwise
      (fun a b => a.id ≠ b.id) :=
  alert_ids_unique_of_strict_clock _
    (by
      constructor
      · intro e he
        fin_cases he <;> exact ⟨by norm_num, by norm_num⟩
      · simp [eventTimeMs])
    (by simp [List.pairwise_cons, eventTimeMs])

/-- C9 counterexample: the trace with two manual test alerts generated in the
same `Date.now()` millisecond is valid (indices in range, clock
non-decreasing) and reaches a store holding two distinct alerts (severities
`moderate` and `low`) with EQUAL ids — `id: Date.now()` is not a freshly
generated unique identifier. -/
theorem alert_id_collision :
    validTrace
      [ConsumerEvent.testAlert 0 0 (1/2) (1/2) 1000 (JSDate.mk 2026 0 1 0 0),
       ConsumerEvent.testAlert 0 1 (1/2) (1/2) 1000 (JSDate.mk 2026 0 1 0 0)] ∧
    (runEvents initState
      [ConsumerEvent.testAlert 0 0 (1/2) (1/2) 1000 (JSDate.mk 2026 0 1 0 0),
       ConsumerEvent.testAlert 0 1 (1/2) (1/2) 1000 (JSDate.mk 2026 0 1 0 0)]).alerts
      = [generateTestFireAlert 0 1 (1/2) (1/2) 1000 (JSDate.mk 2026 0 1 0 0),
         generateTestFireAlert 0 0 (1/2) (1/2) 1000 (JSDate.mk 2026 0 1 0 0)] ∧
    generateTestFireAlert 0 1 (1/2) (1/2) 1000 (JSDate.mk 2026 0 1 0 0)
      ≠ generateTestFireAlert 0 0 (1/2) (1/2) 1000 (JSDate.mk 2026 0 1 0 0) ∧
    (generateTestFireAlert 0 1 (1/2) (1/2) 1000 (JSDate.mk 2026 0 1 0 0)).id
      = (generateTestFireAlert 0 0 (1/2) (1/2) 1000 (JSDate.mk 2026 0 1 0 0)).id := by
  refine ⟨⟨?_, ?_⟩, rfl, ?_, rfl⟩
  · intro e he
    fin_cases he <;> exact ⟨by norm_num, by norm_num⟩
  · simp [eventTimeMs]
  · intro h
    have hsev := congrArg FireAlert.severity h
    simp [generateTestFireAlert, testSeverities] at hsev

/-- C10: a NONE-severity snapshot never touches `lastAlertHash` (the whole
tick is a no-op), so after a fire snapshot S and any number of NONE
snapshots, a snapshot identical to S is still discarded by the fingerprint
check — no alert created, no notification — and `lastAlertHash` changes only
when a non-NONE snapshot with a different composite arrives, in which case
it becomes that snapshot's fingerprint. -/
theorem fingerprint_survives_none (st : ConsumerState) (data : ESP32FireAlert)
    (t0 : Nat) (now0 : JSDate)
    (hne : data.severity ≠ "") (hnone : data.severity ≠ "NONE")
    (nones : List (ESP32FireAlert × Nat × JSDate))
    (hn : ∀ x ∈ nones, x.1.severity = "NONE")
    (t1 : Nat) (now1 : JSDate) :
    (runEvents (pollESP32Endpoint st (some data) t0 now0).1
        (nones.map fun x => ConsumerEvent.tick (some x.1) x.2.1 x.2.2)).lastAlertHash
      = some (alertHash data) ∧
    pollESP32Endpoint
        (runEvents (pollESP32Endpoint st (some data) t0 now0).1
          (nones.map fun x => ConsumerEvent.tick (some x.1) x.2.1 x.2.2))
        (some data) t1 now1
      = (runEvents (pollESP32Endpoint st (some data) t0 now0).1
          (nones.map fun x => ConsumerEvent.tick (some x.1) x.2.1 x.2.2), []) ∧
    (∀ (st' : ConsumerState) (d : ESP32FireAlert) (t : Nat) (n : JSDate),
      (pollESP32Endpoint st' (some d) t n).1.lastAlertHash ≠ st'.lastAlertHash →
      d.severity ≠ "NONE" ∧ d.severity ≠ "" ∧
        (pollESP32Endpoint st' (some d) t n).1.lastAlertHash
          = some (alertHash d)) := by
  have hrun := runEvents_none_ticks nones
    (pollESP32Endpoint st (some data) t0 now0).1 hn
  have hhash := pollESP32Endpoint_sets_hash st data t0 now0 hne hnone
  refine ⟨by rw [hrun, hhash], ?_, ?_⟩
  · exact pollESP32Endpoint_dup _ data t1 now1 (by rw [hrun, hhash])
  · intro st' d t n hchanged
    have hd1 : d.severity ≠ "NONE" := by
      intro hcon
      rw [pollESP32Endpoint_gate st' d t n (Or.inl hcon)] at hchanged
      exact hchanged rfl
    have hd2 : d.severity ≠ "" := by
      intro hcon
      rw [pollESP32Endpoint_gate st' d t n (Or.inr hcon)] at hchanged
      exact hchanged rfl
    exact ⟨hd1, hd2, pollESP32Endpoint_sets_hash st' d t n hd2 hd1⟩

theorem fingerprint_survives_none_witness :
    pollESP32Endpoint
        (runEvents (pollESP32Endpoint initState
            (some ⟨"HIGH", "2026-01-22 21:35", 16615/1000, 120316/1000⟩)
            1000 (JSDate.mk 2026 0 22 21 36)).1
          (([] : List (ESP32FireAlert × Nat × JSDate)).map
            fun x => ConsumerEvent.tick (some x.1) x.2.1 x.2.2))
        (some ⟨"HIGH", "2026-01-22 21:35", 16615/1000, 120316/1000⟩)
        5000 (JSDate.mk 2026 0 22 21 40)
      = (runEvents (pollESP32Endpoint initState
            (some ⟨"HIGH", "2026-01-22 21:35", 16615/1000, 120316/1000⟩)
            1000 (JSDate.mk 2026 0 22 21 36)).1
          (([] : List (ESP32FireAlert × Nat × JSDate)).map
            fun x => ConsumerEvent.tick (some x.1) x.2.1 x.2.2), []) :=
  (fingerprint_survives_none initState
    ⟨"HIGH", "2026-01-22 21:35", 16615/1000, 120316/1000⟩
    1000 (JSDate.mk 2026 0 22 21 36) (by decide) (by decide)
    [] (by simp) 5000 (JSDate.mk 2026 0 22 21 40)).2.1
